import Mathlib

/-!
Verification of the GeoLens-Europa stormwater network module.

Shallow embedding of:
  * apps/api/src/services/stormwater/runoffRisk.ts   (rational arithmetic, computable)
  * apps/api/src/services/stormwater/networkGraph.ts (real arithmetic; Math.exp,
    Math.sin/cos/atan2/sqrt are modelled with Mathlib's Real functions)

JS numeric semantics: numbers are modelled as exact rationals/reals.  Division by
zero follows Lean's `x / 0 = 0` convention (JS produces Infinity/NaN there); the
only places this matters are zero-length edges, and each use site notes it.
JS `undefined` for an absent object field is modelled with `Option`.
-/

namespace GeoLens

/-- The `riskClass` variant set of `RunoffResult` (`'N/A'` is written `NA`). -/
inductive RiskClass where
  | LOW
  | MODERATE
  | HIGH
  | EXTREME
  | NA
deriving DecidableEq, Repr

/-- `RunoffInput` from runoffRisk.ts.  `clcClass` is `Option` because call sites
may pass an object without that field (JS `undefined`). -/
structure RunoffInput where
  rain24h_mm : ℚ
  clcClass : Option ℚ
  slope_deg : ℚ
deriving DecidableEq, Repr

/-- The `factors` record of `RunoffResult`. -/
structure RunoffFactors where
  rain : ℚ
  impervious : ℚ
  slope : ℚ
deriving DecidableEq, Repr

/-- `RunoffResult` from runoffRisk.ts. -/
structure RunoffResult where
  riskScore : ℚ
  riskClass : RiskClass
  factors : RunoffFactors
deriving DecidableEq, Repr

/-- JS `Number(x.toFixed(3))`: round to 3 decimal places. -/
def round3 (q : ℚ) : ℚ := (round (q * 1000) : ℤ) / 1000

/-- JS `Number(x.toFixed(2))`: round to 2 decimal places. -/
def round2 (q : ℚ) : ℚ := (round (q * 100) : ℤ) / 100

/-- `getImperviousness` from runoffRisk.ts.  The argument is `Option ℚ` because
the caller may pass `undefined`; JS `!clcCode` is true for `undefined` and `0`.
`none` in the result models the JS `null` return (water body). -/
def getImperviousness (clcCode : Option ℚ) : Option ℚ :=
  match clcCode with
  | none => some (1/2)
  | some c =>
    if c = 0 then some (1/2)
    else if 100 ≤ c ∧ c < 200 then some (9/10)
    else if 200 ≤ c ∧ c < 300 then some (2/5)
    else if 300 ≤ c ∧ c < 400 then some (3/20)
    else if 400 ≤ c ∧ c < 500 then some (1/5)
    else if 500 ≤ c then none
    else some (1/2)

/-- `getRainFactor` from runoffRisk.ts: `min(rainMm / 50, 1)`. -/
def getRainFactor (rainMm : ℚ) : ℚ := min (rainMm / 50) 1

/-- `getSlopeFactor` from runoffRisk.ts: `min(deg / 20, 1)` (computed by the
source but unused in the final score). -/
def getSlopeFactor (deg : ℚ) : ℚ := min (deg / 20) 1

/-- JS truthiness of the wetland-saturation guard
`input.clcClass >= 400 && input.clcClass < 500 && input.rain24h_mm > 30`:
comparisons against `undefined` are false. -/
def wetlandOverride (clcClass : Option ℚ) (rain : ℚ) : Prop :=
  match clcClass with
  | none => False
  | some c => 400 ≤ c ∧ c < 500 ∧ 30 < rain

instance : ∀ c r, Decidable (wetlandOverride c r) := fun c r =>
  match c with
  | none => isFalse (fun h => h)
  | some x => inferInstanceAs (Decidable (400 ≤ x ∧ x < 500 ∧ 30 < r))

/-- `computeRunoffRisk` from runoffRisk.ts. -/
def computeRunoffRisk (input : RunoffInput) : Option RunoffResult :=
  match getImperviousness input.clcClass with
  | none => none
  | some imp0 =>
    let imp := if wetlandOverride input.clcClass input.rain24h_mm then (4/5 : ℚ) else imp0
    let rainF := getRainFactor input.rain24h_mm
    let slopeMulti := 1/2 + (min input.slope_deg 30) / 30
    let rawScore := rainF * imp * slopeMulti
    let finalScore := min rawScore 1
    let riskClass :=
      if finalScore > 4/5 then RiskClass.EXTREME
      else if finalScore > 1/2 then RiskClass.HIGH
      else if finalScore > 1/5 then RiskClass.MODERATE
      else RiskClass.LOW
    some { riskScore := round3 finalScore
           riskClass := riskClass
           factors := { rain := round2 rainF
                        impervious := round2 imp
                        slope := round2 slopeMulti } }

/-! ### Specification-side runoff model (for the refinement claim C2)

These definitions follow the words of spec §6, to be compared with
`computeRunoffRisk` above. -/

/-- Spec §6 imperviousness: band table with missing→0.5 default and the
wetland-saturation override; `none` means open water (code ≥ 500). -/
def specImperviousness (clcClass : Option ℚ) (rain : ℚ) : Option ℚ :=
  match clcClass with
  | none => some (1/2)
  | some c =>
    if 500 ≤ c then none
    else if 400 ≤ c ∧ c < 500 then (if 30 < rain then some (4/5) else some (1/5))
    else if 100 ≤ c ∧ c < 200 then some (9/10)
    else if 200 ≤ c ∧ c < 300 then some (2/5)
    else if 300 ≤ c ∧ c < 400 then some (3/20)
    else some (1/2)

/-- Spec §6 class thresholds, applied to the (unrounded) score:
`>0.8 EXTREME, >0.5 HIGH, >0.2 MODERATE, else LOW`. -/
def specRiskClass (score : ℚ) : RiskClass :=
  if score > 4/5 then RiskClass.EXTREME
  else if score > 1/2 then RiskClass.HIGH
  else if score > 1/5 then RiskClass.MODERATE
  else RiskClass.LOW

/-- Spec §6 runoff model: `null` for water, otherwise the rounded
`min(rainFactor * imperviousness * slopeMultiplier, 1)` with its class. -/
def specRunoff (input : RunoffInput) : Option (ℚ × RiskClass) :=
  match specImperviousness input.clcClass input.rain24h_mm with
  | none => none
  | some imp =>
    let rainF := min (input.rain24h_mm / 50) 1
    let slopeMulti := 1/2 + (min input.slope_deg 30) / 30
    let score := min (rainF * imp * slopeMulti) 1
    some (round3 score, specRiskClass score)

/-! ### The per-cell contribution step of `computeRisk` (networkGraph.ts)

`computeRisk`'s local helper `contribute` builds a fresh object literal per cell
and feeds it to `computeRunoffRisk`. -/

/-- A cell-data record returned by the sampling collaborator (spec §6): an
absent field is `none` and "must not be treated as zero". -/
structure CellData where
  precipitation_mm : Option ℚ
  clc_code : Option ℚ
  slope : Option ℚ
deriving DecidableEq, Repr

/-- The object literal built by `contribute`:
`{ rain24h_mm: d.precipitation_mm || 0, clc_code: d.clc_code || 999, slope_deg: d.slope || 0 }`. -/
structure ContributeArg where
  rain24h_mm : ℚ
  clc_code : ℚ
  slope_deg : ℚ
deriving DecidableEq, Repr

/-- JS `x || dflt` for a possibly-absent numeric field: `undefined` and `0`
are falsy and fall back to the default. -/
def jsOr (x : Option ℚ) (dflt : ℚ) : ℚ :=
  match x with
  | none => dflt
  | some v => if v = 0 then dflt else v

/-- The argument object `contribute` passes for cell data `d`. -/
def contributeArg (d : CellData) : ContributeArg :=
  { rain24h_mm := jsOr d.precipitation_mm 0
    clc_code := jsOr d.clc_code 999
    slope_deg := jsOr d.slope 0 }

/-- How `computeRunoffRisk` reads the object built by `contribute`: the object
carries the land-cover code under the key `clc_code`, but `computeRunoffRisk`
reads `input.clcClass` — a key this object literal does not have — so that
read yields JS `undefined` (`none`); the `clc_code` field is never read. -/
def contributeInput (a : ContributeArg) : RunoffInput :=
  { rain24h_mm := a.rain24h_mm, clcClass := none, slope_deg := a.slope_deg }

/-- The per-cell runoff risk actually used by `computeRisk`'s `contribute`. -/
def contributeRisk (d : CellData) : Option RunoffResult :=
  computeRunoffRisk (contributeInput (contributeArg d))

end GeoLens

namespace GeoLens

/-- The effective imperviousness of `computeRunoffRisk` (band table plus the
wetland override) agrees with the spec §6 band table. -/
theorem getImperviousness_matches_spec (c : Option ℚ) (r : ℚ) :
    (getImperviousness c).map (fun i => if wetlandOverride c r then (4/5 : ℚ) else i) =
      specImperviousness c r := by
  cases c with
  | none => simp [getImperviousness, specImperviousness, wetlandOverride]
  | some x =>
      rcases le_or_lt 500 x with h5 | h5
      · have h0 : x ≠ 0 := by intro h; rw [h] at h5; norm_num at h5
        have hn2 : ¬ x < 200 := by linarith
        have hn3 : ¬ x < 300 := by linarith
        have hn4 : ¬ x < 400 := by linarith
        have hn5 : ¬ x < 500 := by linarith
        simp [getImperviousness, specImperviousness, wetlandOverride, h0, h5, hn2, hn3, hn4, hn5]
      · rcases le_or_lt 400 x with h4 | h4
        · have h0 : x ≠ 0 := by intro h; rw [h] at h4; norm_num at h4
          have hn2 : ¬ x < 200 := by linarith
          have hn3 : ¬ x < 300 := by linarith
          have hn4 : ¬ x < 400 := by linarith
          have hn5 : ¬ (500:ℚ) ≤ x := by linarith
          by_cases hr : 30 < r <;>
            simp [getImperviousness, specImperviousness, wetlandOverride, h0, h4, h5, hn2,
              hn3, hn4, hn5, hr]
        · rcases le_or_lt 300 x with h3 | h3
          · have h0 : x ≠ 0 := by intro h; rw [h] at h3; norm_num at h3
            have hn2 : ¬ x < 200 := by linarith
            have hn3 : ¬ x < 300 := by linarith
            have hn5 : ¬ (500:ℚ) ≤ x := by linarith
            have hn4' : ¬ (400:ℚ) ≤ x := by linarith
            simp [getImperviousness, specImperviousness, wetlandOverride, h0, h3, h4, hn2,
              hn3, hn5, hn4']
          · rcases le_or_lt 200 x with h2 | h2
            · have h0 : x ≠ 0 := by intro h; rw [h] at h2; norm_num at h2
              have hn2 : ¬ x < 200 := by linarith
              have hn5 : ¬ (500:ℚ) ≤ x := by linarith
              have hn4' : ¬ (400:ℚ) ≤ x := by linarith
              simp [getImperviousness, specImperviousness, wetlandOverride, h0, h2, h3, hn2,
                hn5, hn4']
            · rcases le_or_lt 100 x with h1 | h1
              · have h0 : x ≠ 0 := by intro h; rw [h] at h1; norm_num at h1
                have hn5 : ¬ (500:ℚ) ≤ x := by linarith
                have hn4' : ¬ (400:ℚ) ≤ x := by linarith
                have hn3' : ¬ (300:ℚ) ≤ x := by linarith
                simp [getImperviousness, specImperviousness, wetlandOverride, h0, h1, h2,
                  hn5, hn4', hn3']
              · have hn5 : ¬ (500:ℚ) ≤ x := by linarith
                have hn4' : ¬ (400:ℚ) ≤ x := by linarith
                have hn3' : ¬ (300:ℚ) ≤ x := by linarith
                have hn2' : ¬ (200:ℚ) ≤ x := by linarith
                have hn1' : ¬ (100:ℚ) ≤ x := by linarith
                by_cases h0 : x = 0
                · subst h0
                  norm_num [getImperviousness, specImperviousness, wetlandOverride]
                · simp [getImperviousness, specImperviousness, wetlandOverride, h0, h1, hn5,
                    hn4', hn3', hn2', hn1']

/-- C2: computeRunoffRisk matches the spec formula (null for code ≥ 500,
otherwise the rounded min(rainFactor·imperviousness·slopeMultiplier, 1) with
the >0.8/>0.5/>0.2 class thresholds — thresholds are applied to the unrounded
score, as in the source), and the three concrete examples of the spec hold:
(0 mm, CLC 100, 0°) gives score 0; CLC 600 gives null; (50 mm, CLC 100, 30°)
gives score 1.0 and class EXTREME. -/
theorem computeRunoffRisk_matches_spec :
    (∀ input : RunoffInput,
      (computeRunoffRisk input).map (fun r => (r.riskScore, r.riskClass)) = specRunoff input)
    ∧ (computeRunoffRisk ⟨0, some 100, 0⟩).map RunoffResult.riskScore = some 0
    ∧ (computeRunoffRisk ⟨0, some 600, 0⟩) = none
    ∧ (computeRunoffRisk ⟨50, some 100, 30⟩).map
        (fun r => (r.riskScore, r.riskClass)) = some (1, RiskClass.EXTREME) := by
  refine ⟨?_,
    by norm_num [computeRunoffRisk, getImperviousness, wetlandOverride, getRainFactor,
      round3, round_eq],
    by norm_num [computeRunoffRisk, getImperviousness],
    by norm_num [computeRunoffRisk, getImperviousness, wetlandOverride, getRainFactor,
      round3, round_eq]⟩
  intro input
  obtain ⟨rain, clc, slope⟩ := input
  have h := getImperviousness_matches_spec clc rain
  cases hg : getImperviousness clc with
  | none =>
      rw [hg] at h
      simp only [Option.map_none'] at h
      simp [computeRunoffRisk, specRunoff, hg, ← h]
  | some i =>
      rw [hg] at h
      simp only [Option.map_some'] at h
      simp [computeRunoffRisk, specRunoff, hg, ← h, getRainFactor, specRiskClass]

end GeoLens

namespace GeoLens

/-- C5 (code bug): in `computeRisk`'s `contribute`, the imperviousness used is
always the missing-land-cover default 0.5, never the band value, because the
call passes the land-cover code under `clc_code` while `computeRunoffRisk`
reads `clcClass`.  At the failing input (precipitation 50 mm, clc_code 100,
slope 30°) the code yields imperviousness factor 0.5 and riskScore 0.75,
where the claim requires the urban-band imperviousness 0.9 (riskScore 1.0);
the second conjunct shows every cell, whatever its land-cover code, gets
imperviousness factor 0.5 and a non-null result (so the wetland override and
the water-body cutoff can never act either). -/
theorem contributeRisk_defaults_imperviousness :
    contributeRisk ⟨some 50, some 100, some 30⟩ =
      some ⟨3/4, RiskClass.HIGH, ⟨1, 1/2, 3/2⟩⟩
    ∧ ∀ d : CellData,
        (contributeRisk d).map (fun r => r.factors.impervious) = some (1/2) := by
  constructor
  · norm_num [contributeRisk, contributeInput, contributeArg, jsOr, computeRunoffRisk,
      getImperviousness, wetlandOverride, getRainFactor, round3, round2, round_eq]
  · intro d
    simp only [contributeRisk, contributeInput, contributeArg, computeRunoffRisk,
      getImperviousness, wetlandOverride]
    norm_num [round2, round_eq]

end GeoLens

namespace GeoLens

/-! ### networkGraph.ts — data model and helpers -/

/-- JS `Math.atan2 (y, x)`. -/
noncomputable def atan2 (y x : ℝ) : ℝ :=
  if 0 < x then Real.arctan (y / x)
  else if x < 0 ∧ 0 ≤ y then Real.arctan (y / x) + Real.pi
  else if x < 0 then Real.arctan (y / x) - Real.pi
  else if 0 < y then Real.pi / 2
  else if y < 0 then -(Real.pi / 2)
  else 0

/-- `haversineDistance` from networkGraph.ts. -/
noncomputable def haversineDistance (lat1 lon1 lat2 lon2 : ℝ) : ℝ :=
  let R : ℝ := 6371e3
  let phi1 := lat1 * Real.pi / 180
  let phi2 := lat2 * Real.pi / 180
  let dphi := (lat2 - lat1) * Real.pi / 180
  let dlam := (lon2 - lon1) * Real.pi / 180
  let a := Real.sin (dphi / 2) * Real.sin (dphi / 2) +
    Real.cos phi1 * Real.cos phi2 * Real.sin (dlam / 2) * Real.sin (dlam / 2)
  let c := 2 * atan2 (Real.sqrt a) (Real.sqrt (1 - a))
  R * c

/-- `Node` from networkGraph.ts (`pos` is inlined as `lat`/`lon`). -/
structure Node where
  id : String
  type : String
  lat : ℝ
  lon : ℝ
  elevation : ℝ
  h3Index : String
  attachedCatchments : List String

/-- The open `props` bag of an edge / the `properties` bag of an asset: the
fields the module reads or writes (`direction`, `isFlat`, `type`) plus an
opaque remainder; an absent field is `none`. -/
structure EdgeProps where
  direction : Option String
  isFlat : Option Bool
  ptype : Option String
  rest : List (String × String)

/-- `Edge` from networkGraph.ts. -/
structure Edge where
  id : String
  fromNodeId : String
  toNodeId : String
  length : ℝ
  slope : ℝ
  assetId : String
  props : EdgeProps

/-- The `stats` record of `Network`. -/
structure NetStats where
  nodeCount : ℕ
  edgeCount : ℕ
  snaps : ℕ
deriving DecidableEq, Repr

/-- `Network` from networkGraph.ts; the node and edge `Record`s are modelled
as insertion-ordered association lists with unique keys (JS `Map`/object
semantics). -/
structure Network where
  id : String
  nodes : List (String × Node)
  edges : List (String × Edge)
  assets : List String
  stats : NetStats

/-- GeoJSON-style geometry of a `StormwaterAsset`; coordinate pairs are
`(lon, lat)` as in the source. -/
inductive Geometry where
  | point (lon lat : ℝ)
  | lineString (coords : List (ℝ × ℝ))
  | polygon (rings : List (List (ℝ × ℝ)))
  | other

/-- `StormwaterAsset` (declared in assetService.ts; the fields used by
networkGraph.ts). -/
structure StormwaterAsset where
  id : String
  atype : String
  geometry : Geometry
  properties : EdgeProps

/-- JS `Map.get` / `obj[k]` on an association list. -/
def mapGet {α : Type} (m : List (String × α)) (k : String) : Option α :=
  (m.find? (fun p => p.1 == k)).map (fun p => p.2)

/-- JS `Map.set`: overwrite in place when the key exists, else append. -/
def mapSet {α : Type} (m : List (String × α)) (k : String) (v : α) : List (String × α) :=
  if (m.find? (fun p => p.1 == k)).isSome then
    m.map (fun p => if p.1 == k then (k, v) else p)
  else m ++ [(k, v)]

/-- JS `s || dflt` for a possibly-absent string (`undefined` and `""` are falsy). -/
def jsOrStr (x : Option String) (dflt : String) : String :=
  match x with
  | none => dflt
  | some s => if s = "" then dflt else s

/-- Modelled from the spec: the hexagonal spatial index (§2, §4.1) provided by
the external h3-js library, which is not part of this repository.  `cellOf`
is `latLngToCell(lat, lon, 11)`, `diskOf` is `gridDisk(cell, 1)` ("a
fixed-resolution hexagonal cell plus its immediate neighborhood ring"), and
`synthId` is the synthesized node id `node_${lat.toFixed(6)}_${lon.toFixed(6)}`
("synthesized from rounded coordinates", §3). -/
structure SpatialEnv where
  cellOf : ℝ → ℝ → String
  diskOf : String → List String
  synthId : ℝ → ℝ → String

/-- The private mutable state of `NetworkBuilder`, plus the `snapCount`
local of `build`. -/
structure BuilderState where
  nodes : List (String × Node)
  edges : List (String × Edge)
  h3IndexMap : List (String × List String)
  snapCount : ℕ

/-- A fresh `NetworkBuilder`. -/
def BuilderState.empty : BuilderState := ⟨[], [], [], 0⟩

/-- One candidate inspection inside `findSnapCandidate`'s nested loops. -/
noncomputable def snapScan (st : BuilderState) (lat lon : ℝ)
    (acc : Option String × ℝ) (candId : String) : Option String × ℝ :=
  match mapGet st.nodes candId with
  | none => acc
  | some cand =>
    let dist := haversineDistance lat lon cand.lat cand.lon
    if dist < acc.2 then (some candId, dist) else acc

/-- One bucket visit of `findSnapCandidate`'s outer loop: scan the bucket's
candidate list (`this.h3IndexMap.get(bucket) || []`). -/
noncomputable def bucketScan (st : BuilderState) (lat lon : ℝ)
    (acc : Option String × ℝ) (bucket : String) : Option String × ℝ :=
  ((mapGet st.h3IndexMap bucket).getD []).foldl (snapScan st lat lon) acc

/-- `NetworkBuilder.findSnapCandidate`: nearest existing node strictly within
the tolerance, searched over the spatial buckets of the query point;
`minDist` starts at `snapToleranceM` `tol` and only strict improvements win. -/
noncomputable def findSnapCandidate (env : SpatialEnv) (tol : ℝ) (st : BuilderState)
    (lat lon : ℝ) : Option (String × ℝ) :=
  let r := (env.diskOf (env.cellOf lat lon)).foldl (bucketScan st lat lon) (none, tol)
  match r.1 with
  | some nid => some (nid, r.2)
  | none => none

/-- Fallback for the source's non-null assertion `this.nodes.get(...)!`;
snap candidates always come from the node map, so it is never reached. -/
def absentNode : Node := ⟨"", "", 0, 0, 0, "", []⟩

/-- `NetworkBuilder.addNode`: reuse the snapped node when one exists,
otherwise create and index a new node. -/
noncomputable def addNode (env : SpatialEnv) (tol : ℝ) (st : BuilderState)
    (lat lon : ℝ) (ntype : String) (existingId : Option String) : Node × BuilderState :=
  match findSnapCandidate env tol st lat lon with
  | some snap => ((mapGet st.nodes snap.1).getD absentNode, st)
  | none =>
    let id := jsOrStr existingId (env.synthId lat lon)
    let h3 := env.cellOf lat lon
    let node : Node := ⟨id, ntype, lat, lon, 0, h3, []⟩
    let h3Map :=
      match mapGet st.h3IndexMap h3 with
      | none => st.h3IndexMap ++ [(h3, [id])]
      | some l => mapSet st.h3IndexMap h3 (l ++ [id])
    (node, { st with nodes := mapSet st.nodes id node, h3IndexMap := h3Map })

end GeoLens

namespace GeoLens

/-- Step 1 of `NetworkBuilder.build`: a point asset establishes a fixed node
(its own id preferred, declared type defaulting to `manhole`). -/
noncomputable def processPoint (env : SpatialEnv) (tol : ℝ)
    (st : BuilderState) (a : StormwaterAsset) : BuilderState :=
  match a.geometry with
  | Geometry.point lon lat =>
      (addNode env tol st lat lon (jsOrStr a.properties.ptype "manhole") (some a.id)).2
  | _ => st

/-- Step 2 of `NetworkBuilder.build`: a line asset with at least two vertices
snaps-or-creates its first and last vertex and contributes one edge; each
snapped endpoint increments the snap counter.  Edge length is the haversine
distance between the resolved node positions. -/
noncomputable def processLine (env : SpatialEnv) (tol : ℝ)
    (st : BuilderState) (a : StormwaterAsset) : BuilderState :=
  match a.geometry with
  | Geometry.lineString [] => st
  | Geometry.lineString [_] => st
  | Geometry.lineString (c0 :: c1 :: cs) =>
      let startc := c0
      let endc := ((c0 :: c1 :: cs).getLast?).getD c0
      let (startNode, st1) :=
        match findSnapCandidate env tol st startc.2 startc.1 with
        | some snap =>
            ((mapGet st.nodes snap.1).getD absentNode, { st with snapCount := st.snapCount + 1 })
        | none => addNode env tol st startc.2 startc.1 "vertex" none
      let (endNode, st2) :=
        match findSnapCandidate env tol st1 endc.2 endc.1 with
        | some snap =>
            ((mapGet st1.nodes snap.1).getD absentNode, { st1 with snapCount := st1.snapCount + 1 })
        | none => addNode env tol st1 endc.2 endc.1 "vertex" none
      let len := haversineDistance startNode.lat startNode.lon endNode.lat endNode.lon
      let e : Edge :=
        ⟨"edge_" ++ a.id, startNode.id, endNode.id, len, 0, a.id, a.properties⟩
      { st2 with edges := mapSet st2.edges e.id e }
  | _ => st

/-- Step 3 of `NetworkBuilder.build`: a polygon catchment attaches to the node
nearest (strict haversine minimum, first seen wins) to the arithmetic-mean
centroid of its outer ring.  (The source also computes an unused
`findSnapCandidate` result, dropped here; a polygon with no rings would make
the source throw, modelled as a skip since no claim reaches it.) -/
noncomputable def processCatchment (st : BuilderState) (a : StormwaterAsset) : BuilderState :=
  match a.geometry with
  | Geometry.polygon (ring :: _) =>
      let lon := (ring.map (fun p => p.1)).sum / ring.length
      let lat := (ring.map (fun p => p.2)).sum / ring.length
      let nearest := st.nodes.foldl
        (fun acc p =>
          let d := haversineDistance lat lon p.2.lat p.2.lon
          match acc with
          | none => some (p.1, d)
          | some best => if d < best.2 then some (p.1, d) else acc)
        none
      match nearest with
      | some best =>
          if best.1 = "" then st
          else
            match mapGet st.nodes best.1 with
            | some n =>
                let n2 := { n with attachedCatchments := n.attachedCatchments ++ [a.id] }
                { st with nodes := mapSet st.nodes best.1 n2 }
            | none => st
      | none => st
  | _ => st

/-- Geometry-type filter `a.geometry.type === 'Point'`. -/
def isPointGeom (a : StormwaterAsset) : Bool :=
  match a.geometry with
  | Geometry.point _ _ => true
  | _ => false

/-- Geometry-type filter `a.geometry.type === 'LineString'`. -/
def isLineGeom (a : StormwaterAsset) : Bool :=
  match a.geometry with
  | Geometry.lineString _ => true
  | _ => false

/-- `NetworkBuilder.build` on a fresh builder: points, then lines, then
catchments; the network id embeds the clock reading (`Date.now()`), passed
here as the `timestamp` argument. -/
noncomputable def build (env : SpatialEnv) (tol : ℝ) (timestamp : ℕ)
    (assets : List StormwaterAsset) : Network :=
  let st1 := (assets.filter isPointGeom).foldl (processPoint env tol) BuilderState.empty
  let st2 := (assets.filter isLineGeom).foldl (processLine env tol) st1
  let st3 := (assets.filter (fun a => a.atype == "catchment")).foldl processCatchment st2
  { id := "net_" ++ toString timestamp
    nodes := st3.nodes
    edges := st3.edges
    assets := assets.map (fun a => a.id)
    stats := { nodeCount := st3.nodes.length
               edgeCount := st3.edges.length
               snaps := st3.snapCount } }

end GeoLens

namespace GeoLens

/-- `NetworkBuilder.orientEdges` on one edge.  On the source's
`dz / edge.length`: for a zero-length edge JS yields NaN or ±Infinity where
this model yields slope 0 (flat branch); no claim distinguishes the two. -/
noncomputable def orientEdge (nodes : List (String × Node)) (e : Edge) : Edge :=
  match mapGet nodes e.fromNodeId, mapGet nodes e.toNodeId with
  | some nodeFrom, some nodeTo =>
      let dz := nodeFrom.elevation - nodeTo.elevation
      let slope := dz / e.length
      if |slope| < 0.001 then
        { e with slope := slope
                 props := { e.props with direction := some "unknown", isFlat := some true } }
      else if slope < 0 then
        { e with fromNodeId := e.toNodeId
                 toNodeId := e.fromNodeId
                 slope := -slope
                 props := { e.props with direction := some "downhill" } }
      else
        { e with slope := slope
                 props := { e.props with direction := some "downhill" } }
  | _, _ => e

/-- `NetworkBuilder.orientEdges`: orient every edge in place (edges whose
endpoints are missing from the node map are skipped unchanged). -/
noncomputable def orientEdges (net : Network) : Network :=
  { net with edges := net.edges.map (fun p => (p.1, orientEdge net.nodes p.2)) }

/-! ### networkGraph.ts — the propagation loop of `computeRisk`

The per-node local inflow (`nodeFlows`) is taken as an input function of
support inside the node set; its per-cell construction is modelled by
`contributeRisk` above.  The per-edge `edgeFlows` diagnostic map is not
modelled (no claim mentions it). -/

/-- Iteration cap of the propagation loop. -/
def ITERATIONS : ℕ := 20

/-- Decay constant (0.1% per meter). -/
noncomputable def DECAY_K : ℝ := 0.001

/-- Damping factor of the relaxation. -/
noncomputable def DAMPING : ℝ := 0.5

/-- The edge values of a network, in map iteration order. -/
def Network.edgeVals (net : Network) : List Edge := net.edges.map (fun p => p.2)

/-- The node keys of a network, in map iteration order. -/
def Network.nodeKeys (net : Network) : List String := net.nodes.map (fun p => p.1)

/-- Per-edge decay factor: `exp(-DECAY_K * length)`, halved again when the
edge direction is `unknown`. -/
noncomputable def edgeDecay (e : Edge) : ℝ :=
  let decay := Real.exp (-DECAY_K * e.length)
  if e.props.direction = some "unknown" then decay * 0.5 else decay

/-- One edge visit of the push loop: when the upstream flow exceeds 0.001,
add `q_in * decay` to the proposed next-state of the downstream node. -/
noncomputable def pushOne (s : String → ℝ) (nf : String → ℝ) (e : Edge) : String → ℝ :=
  if 0.001 < s e.fromNodeId then
    fun n => if n = e.toNodeId then nf e.toNodeId + s e.fromNodeId * edgeDecay e else nf n
  else nf

/-- The proposed next-state of an iteration: start from the local inflow map
(`new Map(nodeFlows)`) and push along every edge. -/
noncomputable def nextFlow (net : Network) (inflow s : String → ℝ) : String → ℝ :=
  net.edgeVals.foldl (pushOne s) inflow

/-- Keys of `nextFlowState` after the push loop: the node keys (copied from
`nodeFlows`) plus every pushing edge's downstream key. -/
noncomputable def dampKeys (net : Network) (s : String → ℝ) : List String :=
  net.nodeKeys ++
    (net.edgeVals.filter (fun e => decide (0.001 < s e.fromNodeId))).map (fun e => e.toNodeId)

/-- The damping pass: every key of `nextFlowState` is overwritten with
`(1 - DAMPING) * q_old + DAMPING * q_new`; other flows stay. -/
noncomputable def stepFlow (net : Network) (inflow s : String → ℝ) : String → ℝ :=
  fun n =>
    if n ∈ dampKeys net s then (1 - DAMPING) * s n + DAMPING * nextFlow net inflow s n
    else s n

/-- Maximum absolute damped change over the keys of `nextFlowState`. -/
noncomputable def maxDelta (net : Network) (inflow s : String → ℝ) : ℝ :=
  (dampKeys net s).foldl (fun m n => max m |stepFlow net inflow s n - s n|) 0

/-- The iteration loop of `computeRisk`, by remaining fuel; returns the final
flow state and the number of iterations executed.  The loop body updates the
state and breaks once `maxDelta < 0.01`. -/
noncomputable def propagate (net : Network) (inflow : String → ℝ) :
    (String → ℝ) → ℕ → (String → ℝ) × ℕ
  | s, 0 => (s, 0)
  | s, Nat.succ k =>
      let s2 := stepFlow net inflow s
      if maxDelta net inflow s < 0.01 then (s2, 1)
      else
        let r := propagate net inflow s2 k
        (r.1, r.2 + 1)

/-- The flow state `computeRisk` ends with (`flowState` after the loop). -/
noncomputable def computeRiskFlows (net : Network) (inflow : String → ℝ) : String → ℝ :=
  (propagate net inflow inflow ITERATIONS).1

/-- The number of loop iterations `computeRisk` actually executes. -/
noncomputable def computeRiskIters (net : Network) (inflow : String → ℝ) : ℕ :=
  (propagate net inflow inflow ITERATIONS).2

/-- Per-node slice of `computeRisk`'s return value (`local_inflow`,
`flow_accumulated`). -/
structure RiskNodeResult where
  local_inflow : ℝ
  flow_accumulated : ℝ

/-- The `nodeResults` record `computeRisk` returns. -/
noncomputable def computeRiskNodeResults (net : Network) (inflow : String → ℝ) :
    List (String × RiskNodeResult) :=
  net.nodes.map (fun p => (p.1, ⟨inflow p.1, computeRiskFlows net inflow p.1⟩))

/-- The `risk_stats.iterations` field `computeRisk` returns: the literal
constant `ITERATIONS`. -/
def computeRiskStatsIterations : ℕ := ITERATIONS

/-- Spec-side (§4.4) per-node incoming sum: over every edge whose upstream
flow exceeds the 0.001 threshold and whose destination is `n`, the decayed
`q_out`. -/
noncomputable def specInflowSum (net : Network) (s : String → ℝ) (n : String) : ℝ :=
  (net.edgeVals.map (fun e =>
    if 0.001 < s e.fromNodeId ∧ e.toNodeId = n then s e.fromNodeId * edgeDecay e else 0)).sum

end GeoLens

namespace GeoLens

/-- Unfolding the sequential push loop: the proposed next-state at `n` is the
base value plus the sum of decayed pushes targeting `n`. -/
theorem pushOne_foldl (s : String → ℝ) (es : List Edge) (nf : String → ℝ) (n : String) :
    (es.foldl (pushOne s) nf) n =
      nf n + (es.map (fun e =>
        if 0.001 < s e.fromNodeId ∧ e.toNodeId = n then s e.fromNodeId * edgeDecay e
        else 0)).sum := by
  induction es generalizing nf with
  | nil => simp
  | cons e es ih =>
      rw [List.foldl_cons, ih (pushOne s nf e), List.map_cons, List.sum_cons]
      have hstep : (pushOne s nf e) n =
          nf n + (if 0.001 < s e.fromNodeId ∧ e.toNodeId = n then
            s e.fromNodeId * edgeDecay e else 0) := by
        unfold pushOne
        by_cases hq : 0.001 < s e.fromNodeId
        · by_cases hn : n = e.toNodeId
          · subst hn; simp [hq]
          · have hn2 : ¬ (e.toNodeId = n) := fun h => hn h.symm
            simp [hq, hn, hn2]
        · simp [hq]
      rw [hstep]
      ring

/-- The proposed next-state equals local inflow plus the spec-side sum. -/
theorem nextFlow_eq (net : Network) (inflow s : String → ℝ) :
    nextFlow net inflow s = fun n => inflow n + specInflowSum net s n := by
  funext n
  exact pushOne_foldl s net.edgeVals inflow n

/-- The loop never executes more iterations than its fuel. -/
theorem propagate_iters_le (net : Network) (inflow : String → ℝ) :
    ∀ (k : ℕ) (s : String → ℝ), (propagate net inflow s k).2 ≤ k := by
  intro k
  induction k with
  | zero => intro s; simp [propagate]
  | succ k ih =>
      intro s
      unfold propagate
      by_cases h : maxDelta net inflow s < 0.01
      · simp [h]
      · simpa [h] using Nat.succ_le_succ (ih (stepFlow net inflow s))

/-- C1: each iteration of computeRisk's propagation builds the proposed
next-state from every node's local inflow plus, for every edge whose upstream
flow exceeds 0.001, the decayed push `q_in * exp(-0.001*length)` (halved
again for `unknown`-direction edges) into the destination; every touched node
is then damped as `(1 - 0.5) * old + 0.5 * proposed`; the loop executes at
most its fuel (the cap is 20) and returns right after the first iteration
whose maximum absolute change is below 0.01. -/
theorem computeRisk_propagation_step (net : Network) (inflow s : String → ℝ) (k : ℕ) :
    (nextFlow net inflow s = fun n => inflow n + specInflowSum net s n)
    ∧ (stepFlow net inflow s = fun n =>
        if n ∈ dampKeys net s then (1 - 0.5) * s n + 0.5 * (inflow n + specInflowSum net s n)
        else s n)
    ∧ (propagate net inflow s k).2 ≤ k
    ∧ ITERATIONS = 20
    ∧ (propagate net inflow s (k + 1) =
        if maxDelta net inflow s < 0.01 then (stepFlow net inflow s, 1)
        else ((propagate net inflow (stepFlow net inflow s) k).1,
              (propagate net inflow (stepFlow net inflow s) k).2 + 1)) := by
  refine ⟨nextFlow_eq net inflow s, ?_, propagate_iters_le net inflow k s, rfl, ?_⟩
  · funext n
    unfold stepFlow DAMPING
    rw [nextFlow_eq]
  · conv_lhs => unfold propagate

/-- The decay factor of an edge is never negative. -/
theorem edgeDecay_nonneg (e : Edge) : 0 ≤ edgeDecay e := by
  unfold edgeDecay
  split
  · positivity
  · positivity

/-- The spec-side incoming sum is never negative. -/
theorem specInflowSum_nonneg (net : Network) (s : String → ℝ) (n : String) :
    0 ≤ specInflowSum net s n := by
  unfold specInflowSum
  apply List.sum_nonneg
  intro x hx
  simp only [List.mem_map] at hx
  obtain ⟨e, _, rfl⟩ := hx
  split
  · rename_i hcond
    have h1 : (0:ℝ) ≤ s e.fromNodeId := le_of_lt (lt_trans (by norm_num) hcond.1)
    exact mul_nonneg h1 (edgeDecay_nonneg e)
  · exact le_refl 0

/-- One damped step preserves non-negativity of the flow state, given
non-negative local inflow. -/
theorem stepFlow_nonneg (net : Network) (inflow s : String → ℝ)
    (hin : ∀ n, 0 ≤ inflow n) (hs : ∀ n, 0 ≤ s n) :
    ∀ n, 0 ≤ stepFlow net inflow s n := by
  intro n
  unfold stepFlow DAMPING
  split
  · have h1 := hs n
    have h2 := hin n
    have h3 := specInflowSum_nonneg net s n
    have h4 := nextFlow_eq net inflow s
    have h5 : nextFlow net inflow s n = inflow n + specInflowSum net s n := by rw [h4]
    rw [h5]
    nlinarith
  · exact hs n

/-- Every state the loop can return is non-negative, given non-negative
local inflow and a non-negative start state. -/
theorem propagate_nonneg (net : Network) (inflow : String → ℝ)
    (hin : ∀ n, 0 ≤ inflow n) :
    ∀ (k : ℕ) (s : String → ℝ), (∀ n, 0 ≤ s n) →
      ∀ n, 0 ≤ (propagate net inflow s k).1 n := by
  intro k
  induction k with
  | zero => intro s hs n; simpa [propagate] using hs n
  | succ k ih =>
      intro s hs n
      unfold propagate
      by_cases h : maxDelta net inflow s < 0.01
      · simpa [h] using stepFlow_nonneg net inflow s hin hs n
      · simpa [h] using ih (stepFlow net inflow s) (stepFlow_nonneg net inflow s hin hs) n

/-- C7: the propagation loop of computeRisk executes at most 20 iterations,
and with non-negative local inflow (as produced by summing per-cell risk
scores in [0,1]) every node's final accumulated flow is non-negative. -/
theorem computeRisk_caps_iterations_and_flows_nonneg (net : Network)
    (inflow : String → ℝ) (hin : ∀ n, 0 ≤ inflow n) :
    computeRiskIters net inflow ≤ 20 ∧ ∀ n, 0 ≤ computeRiskFlows net inflow n := by
  constructor
  · exact propagate_iters_le net inflow ITERATIONS inflow
  · exact propagate_nonneg net inflow hin ITERATIONS inflow hin

end GeoLens

namespace GeoLens

/-- A one-node, edge-free example network (used to instantiate theorems). -/
def exNode : Node := ⟨"a", "manhole", 0, 0, 0, "c", []⟩

/-- The example network wrapping `exNode`. -/
def exNet : Network := ⟨"net_0", [("a", exNode)], [], [], ⟨1, 0, 0⟩⟩

/-- The all-zero local-inflow map. -/
def zeroInflow : String → ℝ := fun _ => 0

/-- Witness for C7 at the concrete example network with zero inflow. -/
theorem computeRisk_caps_iterations_and_flows_nonneg_witness :
    (∀ n, 0 ≤ zeroInflow n) ∧
      (computeRiskIters exNet zeroInflow ≤ 20 ∧
        ∀ n, 0 ≤ computeRiskFlows exNet zeroInflow n) :=
  ⟨fun _ => le_refl 0,
    computeRisk_caps_iterations_and_flows_nonneg exNet zeroInflow (fun _ => le_refl 0)⟩

/-- A converged state ends the loop after exactly one more iteration. -/
theorem propagate_converged (net : Network) (inflow s : String → ℝ) (k : ℕ)
    (h : maxDelta net inflow s < 0.01) :
    propagate net inflow s (k + 1) = (stepFlow net inflow s, 1) := by
  conv_lhs => unfold propagate
  simp [h]

/-- On the example network the loop converges immediately. -/
theorem exNet_maxDelta_zero : maxDelta exNet zeroInflow zeroInflow = 0 := by
  simp [maxDelta, dampKeys, stepFlow, nextFlow, exNet, Network.nodeKeys, Network.edgeVals,
    zeroInflow, DAMPING]

/-- C6 counterexample: on a concrete network the loop converges after a single
iteration, yet `risk_stats.iterations` reports the constant cap 20 — the code
returns `{ iterations: ITERATIONS }`, not the count actually used, so a caller
cannot detect (non-)convergence from the reported statistics. -/
theorem computeRisk_reports_cap_not_actual_iterations :
    computeRiskIters exNet zeroInflow = 1
    ∧ computeRiskStatsIterations = 20
    ∧ (1 : ℕ) ≠ 20 := by
  refine ⟨?_, rfl, by norm_num⟩
  have h : maxDelta exNet zeroInflow zeroInflow < 0.01 := by
    rw [exNet_maxDelta_zero]; norm_num
  show (propagate exNet zeroInflow zeroInflow ITERATIONS).2 = 1
  rw [show ITERATIONS = 19 + 1 from rfl, propagate_converged exNet zeroInflow zeroInflow 19 h]

/-- C6 (amended): whenever the propagation loop exits — early convergence or
cap exhaustion — computeRisk returns normally (the model is a total function)
with the loop's final flow state in each node's `flow_accumulated`, but
`risk_stats.iterations` is always the constant cap 20, not the number of
iterations actually used. -/
theorem computeRisk_returns_last_state_and_cap (net : Network) (inflow : String → ℝ) :
    computeRiskNodeResults net inflow =
      net.nodes.map (fun p => (p.1, ⟨inflow p.1, (propagate net inflow inflow 20).1 p.1⟩))
    ∧ computeRiskStatsIterations = 20 :=
  ⟨rfl, rfl⟩

/-- The frame relation of C9 between an oriented edge map entry and its
original: same key, id, length and asset; endpoints equal or swapped once;
every property other than `direction`/`isFlat` untouched. -/
def orientFrame (p2 p1 : String × Edge) : Prop :=
  p2.1 = p1.1
  ∧ p2.2.id = p1.2.id
  ∧ p2.2.length = p1.2.length
  ∧ p2.2.assetId = p1.2.assetId
  ∧ ((p2.2.fromNodeId = p1.2.fromNodeId ∧ p2.2.toNodeId = p1.2.toNodeId)
     ∨ (p2.2.fromNodeId = p1.2.toNodeId ∧ p2.2.toNodeId = p1.2.fromNodeId))
  ∧ p2.2.props.ptype = p1.2.props.ptype
  ∧ p2.2.props.rest = p1.2.props.rest

/-- One edge entry after orientation stands in the frame relation to its
original. -/
theorem orientEdge_frame (nodes : List (String × Node)) (p : String × Edge) :
    orientFrame (p.1, orientEdge nodes p.2) p := by
  unfold orientFrame orientEdge
  rcases mapGet nodes p.2.fromNodeId with _ | nf <;>
    rcases mapGet nodes p.2.toNodeId with _ | nt <;>
      simp
  split_ifs <;> simp

/-- C9: orientEdges leaves the node map, network id, asset list and stats
unchanged, and rewrites the edge map entry-by-entry (no additions, no
removals, order kept) touching only the orientation pair (at most one swap),
the slope, and the `direction`/`isFlat` property entries; each edge's id,
length, assetId and remaining properties are unchanged. -/
theorem orientEdges_frame (net : Network) :
    (orientEdges net).nodes = net.nodes
    ∧ (orientEdges net).id = net.id
    ∧ (orientEdges net).assets = net.assets
    ∧ (orientEdges net).stats = net.stats
    ∧ List.Forall₂ orientFrame (orientEdges net).edges net.edges := by
  refine ⟨rfl, rfl, rfl, rfl, ?_⟩
  show List.Forall₂ orientFrame (net.edges.map fun p => (p.1, orientEdge net.nodes p.2)) net.edges
  rw [List.forall₂_map_left_iff]
  exact List.forall₂_same.2 fun p _ => orientEdge_frame net.nodes p

end GeoLens

namespace GeoLens

/-- Elevation of a node id under the node map (the default is never used when
the id resolves). -/
noncomputable def elevOf (nodes : List (String × Node)) (nid : String) : ℝ :=
  ((mapGet nodes nid).getD absentNode).elevation

/-- The slope `orientEdges` computes for an edge before classification:
`(fromElevation - toElevation) / length`. -/
noncomputable def rawSlope (nodes : List (String × Node)) (e : Edge) : ℝ :=
  (elevOf nodes e.fromNodeId - elevOf nodes e.toNodeId) / e.length

/-- C3: after orientEdges (whose edge map is exactly the per-edge image), for
every edge with resolving endpoints and non-negative length: a
`downhill`-directed result points from higher to lower elevation; a non-flat
edge (|raw slope| ≥ 0.001) stores a non-negative slope; a flat edge keeps its
orientation and gets `direction = unknown`, `isFlat = true`. -/
theorem orientEdges_downhill_invariant (net : Network)
    (hlen : ∀ p ∈ net.edges, 0 ≤ (p : String × Edge).2.length)
    (hres : ∀ p ∈ net.edges, ((mapGet net.nodes (p : String × Edge).2.fromNodeId).isSome = true)
        ∧ ((mapGet net.nodes (p : String × Edge).2.toNodeId).isSome = true)) :
    ((orientEdges net).edges = net.edges.map (fun p => (p.1, orientEdge net.nodes p.2)))
    ∧ ∀ p ∈ net.edges,
      ((orientEdge net.nodes (p : String × Edge).2).props.direction = some "downhill" →
        elevOf net.nodes (orientEdge net.nodes p.2).toNodeId
          ≤ elevOf net.nodes (orientEdge net.nodes p.2).fromNodeId)
      ∧ (0.001 ≤ |rawSlope net.nodes p.2| → 0 ≤ (orientEdge net.nodes p.2).slope)
      ∧ (|rawSlope net.nodes p.2| < 0.001 →
          (orientEdge net.nodes p.2).fromNodeId = p.2.fromNodeId
          ∧ (orientEdge net.nodes p.2).toNodeId = p.2.toNodeId
          ∧ (orientEdge net.nodes p.2).props.direction = some "unknown"
          ∧ (orientEdge net.nodes p.2).props.isFlat = some true) := by
  refine ⟨rfl, ?_⟩
  intro p hp
  obtain ⟨hf, ht⟩ := hres p hp
  have hL := hlen p hp
  rcases hfm : mapGet net.nodes p.2.fromNodeId with _ | nf
  · rw [hfm] at hf; simp at hf
  rcases htm : mapGet net.nodes p.2.toNodeId with _ | nt
  · rw [htm] at ht; simp at ht
  have hraw : rawSlope net.nodes p.2 = (nf.elevation - nt.elevation) / p.2.length := by
    unfold rawSlope elevOf
    rw [hfm, htm]
    rfl
  have helevF : elevOf net.nodes p.2.fromNodeId = nf.elevation := by
    unfold elevOf; rw [hfm]; rfl
  have helevT : elevOf net.nodes p.2.toNodeId = nt.elevation := by
    unfold elevOf; rw [htm]; rfl
  unfold orientEdge
  rw [hfm, htm]
  set S := (nf.elevation - nt.elevation) / p.2.length with hS
  by_cases hflat : |S| < 0.001
  · -- flat branch
    simp only [hflat, if_true]
    refine ⟨?_, ?_, ?_⟩
    · intro hdir
      simp at hdir
    · intro habs
      rw [hraw] at habs
      exact absurd hflat (not_lt.mpr habs)
    · intro _
      simp
  · by_cases hneg : S < 0
    · -- uphill: swap
      simp only [hflat, if_false, hneg, if_true]
      have hLpos : 0 < p.2.length := by
        rcases eq_or_lt_of_le hL with hL0 | hLpos
        · exfalso
          rw [← hL0] at hS
          simp [hS] at hneg
        · exact hLpos
      have hdz : nf.elevation - nt.elevation < 0 := by
        by_contra hge
        push_neg at hge
        have : 0 ≤ S := by rw [hS]; positivity
        linarith
      refine ⟨?_, ?_, ?_⟩
      · intro _
        rw [helevF, helevT]
        linarith
      · intro _
        show (0:ℝ) ≤ -S
        linarith
      · intro habs
        rw [hraw] at habs
        exact absurd habs hflat
    · -- already downhill
      simp only [hflat, if_false, hneg, if_false]
      push_neg at hneg
      have hSpos : 0.001 ≤ S := by
        rcases abs_cases S with ⟨habs, _⟩ | ⟨habs, _⟩
        · rw [← habs]; exact not_lt.mp hflat
        · nlinarith [not_lt.mp hflat]
      have hLpos : 0 < p.2.length := by
        rcases eq_or_lt_of_le hL with hL0 | hLpos
        · exfalso
          rw [← hL0] at hS
          simp [hS] at hSpos
          linarith
        · exact hLpos
      have hdz : 0 ≤ nf.elevation - nt.elevation := by
        rcases div_nonneg_iff.mp (by rw [← hS]; exact hneg :
            0 ≤ (nf.elevation - nt.elevation) / p.2.length) with h1 | h2
        · exact h1.1
        · linarith [h2.2, hLpos]
      refine ⟨?_, ?_, ?_⟩
      · intro _
        rw [helevF, helevT]
        linarith
      · intro _
        simpa using hneg
      · intro habs
        rw [hraw] at habs
        exact absurd habs hflat

end GeoLens

namespace GeoLens

/-- Example node at elevation 10 (for the C3 witness network). -/
def nodeA : Node := ⟨"A", "manhole", 0, 0, 10, "c", []⟩

/-- Example node at elevation 0. -/
def nodeB : Node := ⟨"B", "manhole", 0, 0, 0, "c", []⟩

/-- Example 100 m edge from `nodeA` to `nodeB`. -/
def edgeAB : Edge := ⟨"e1", "A", "B", 100, 0, "L1", ⟨none, none, none, []⟩⟩

/-- Example two-node one-edge network. -/
def exNet2 : Network := ⟨"net_1", [("A", nodeA), ("B", nodeB)], [("e1", edgeAB)], ["L1"], ⟨2, 1, 0⟩⟩

/-- Witness for C3 at the concrete two-node network. -/
theorem orientEdges_downhill_invariant_witness :
    (∀ p ∈ exNet2.edges, 0 ≤ (p : String × Edge).2.length)
    ∧ (∀ p ∈ exNet2.edges, ((mapGet exNet2.nodes (p : String × Edge).2.fromNodeId).isSome = true)
        ∧ ((mapGet exNet2.nodes (p : String × Edge).2.toNodeId).isSome = true))
    ∧ (((orientEdges exNet2).edges = exNet2.edges.map (fun p => (p.1, orientEdge exNet2.nodes p.2)))
      ∧ ∀ p ∈ exNet2.edges,
        ((orientEdge exNet2.nodes (p : String × Edge).2).props.direction = some "downhill" →
          elevOf exNet2.nodes (orientEdge exNet2.nodes p.2).toNodeId
            ≤ elevOf exNet2.nodes (orientEdge exNet2.nodes p.2).fromNodeId)
        ∧ (0.001 ≤ |rawSlope exNet2.nodes p.2| → 0 ≤ (orientEdge exNet2.nodes p.2).slope)
        ∧ (|rawSlope exNet2.nodes p.2| < 0.001 →
            (orientEdge exNet2.nodes p.2).fromNodeId = p.2.fromNodeId
            ∧ (orientEdge exNet2.nodes p.2).toNodeId = p.2.toNodeId
            ∧ (orientEdge exNet2.nodes p.2).props.direction = some "unknown"
            ∧ (orientEdge exNet2.nodes p.2).props.isFlat = some true)) := by
  have h1 : ∀ p ∈ exNet2.edges, 0 ≤ (p : String × Edge).2.length := by
    intro p hp
    simp only [exNet2, List.mem_singleton] at hp
    subst hp
    norm_num [edgeAB]
  have h2 : ∀ p ∈ exNet2.edges,
      ((mapGet exNet2.nodes (p : String × Edge).2.fromNodeId).isSome = true)
      ∧ ((mapGet exNet2.nodes (p : String × Edge).2.toNodeId).isSome = true) := by
    intro p hp
    simp only [exNet2, List.mem_singleton] at hp
    subst hp
    constructor <;> simp [mapGet, exNet2, edgeAB, nodeA, nodeB]
  exact ⟨h1, h2, orientEdges_downhill_invariant exNet2 h1 h2⟩

/-- C8: the build statistics (node count, edge count, snap count) do not
depend on the clock reading, the only run-varying input of `build`; on a
fresh builder they are a deterministic function of the asset list (and the
spatial index and tolerance configuration). -/
theorem build_stats_deterministic (env : SpatialEnv) (tol : ℝ) (t1 t2 : ℕ)
    (assets : List StormwaterAsset) :
    (build env tol t1 assets).stats = (build env tol t2 assets).stats := rfl

end GeoLens

namespace GeoLens

/-- Folding a function that fixes every accumulator over list members changes
nothing. -/
theorem foldl_fixed {α β : Type} (f : β → α → β) (l : List α) (b : β)
    (h : ∀ b' a, a ∈ l → f b' a = b') : l.foldl f b = b := by
  induction l generalizing b with
  | nil => rfl
  | cons x xs ih =>
      rw [List.foldl_cons, h b x (by simp)]
      exact ih b (fun b' a ha => h b' a (by simp [ha]))

/-- `mapGet` on a one-entry map. -/
theorem mapGet_singleton {α : Type} (k : String) (v : α) (k2 : String) :
    mapGet [(k, v)] k2 = if k == k2 then some v else none := by
  unfold mapGet
  cases h : k == k2 <;> simp [List.find?, h]

/-- On an empty builder no snap candidate exists. -/
theorem findSnap_empty (env : SpatialEnv) (tol : ℝ) (lat lon : ℝ) :
    findSnapCandidate env tol BuilderState.empty lat lon = none := by
  have h : (env.diskOf (env.cellOf lat lon)).foldl
      (bucketScan BuilderState.empty lat lon) (none, tol) = (none, tol) :=
    foldl_fixed (bucketScan BuilderState.empty lat lon) _ _ (fun acc b _ => rfl)
  unfold findSnapCandidate
  rw [h]

/-- A builder state holding exactly one registered node. -/
def oneNodeSt (i1 : String) (n1 : Node) (cell1 : String)
    (es : List (String × Edge)) (sc : ℕ) : BuilderState :=
  ⟨[(i1, n1)], es, [(cell1, [i1])], sc⟩

/-- `snapScan` of the single registered node. -/
theorem snapScan_oneNode (i1 : String) (n1 : Node) (cell1 : String)
    (es : List (String × Edge)) (sc : ℕ) (lat lon : ℝ) (acc : Option String × ℝ) :
    snapScan (oneNodeSt i1 n1 cell1 es sc) lat lon acc i1 =
      if haversineDistance lat lon n1.lat n1.lon < acc.2
      then (some i1, haversineDistance lat lon n1.lat n1.lon) else acc := by
  unfold snapScan oneNodeSt
  rw [show mapGet [(i1, n1)] i1 = some n1 by rw [mapGet_singleton]; simp]

/-- One bucket visit over the one-node state: the single candidate is
inspected iff the bucket is the node's cell. -/
theorem bucketScan_oneNode (i1 : String) (n1 : Node) (cell1 : String)
    (es : List (String × Edge)) (sc : ℕ) (lat lon : ℝ)
    (acc : Option String × ℝ) (b : String) :
    bucketScan (oneNodeSt i1 n1 cell1 es sc) lat lon acc b =
      if cell1 == b then
        (if haversineDistance lat lon n1.lat n1.lon < acc.2
          then (some i1, haversineDistance lat lon n1.lat n1.lon) else acc)
      else acc := by
  unfold bucketScan
  show ((mapGet [(cell1, [i1])] b).getD []).foldl _ acc = _
  rw [mapGet_singleton]
  cases h : cell1 == b
  · simp
  · simp only [Option.getD_some, if_true]
    rw [List.foldl_cons, List.foldl_nil, snapScan_oneNode]

/-- The bucket fold never moves off the single node once it holds it at its
own distance. -/
theorem snapFold_oneNode_absorb (i1 : String) (n1 : Node) (cell1 : String)
    (es : List (String × Edge)) (sc : ℕ) (lat lon : ℝ) (bs : List String) :
    bs.foldl (bucketScan (oneNodeSt i1 n1 cell1 es sc) lat lon)
      (some i1, haversineDistance lat lon n1.lat n1.lon) =
      (some i1, haversineDistance lat lon n1.lat n1.lon) := by
  induction bs with
  | nil => rfl
  | cons b bs ih =>
      rw [List.foldl_cons, bucketScan_oneNode]
      cases h : cell1 == b <;> simp [lt_irrefl] <;> exact ih

/-- Within tolerance, once the node's bucket occurs in the searched list the
fold returns the node at its distance. -/
theorem snapFold_oneNode_near (i1 : String) (n1 : Node) (cell1 : String)
    (es : List (String × Edge)) (sc : ℕ) (lat lon tol : ℝ)
    (hd : haversineDistance lat lon n1.lat n1.lon < tol) :
    ∀ (bs : List String), cell1 ∈ bs →
      bs.foldl (bucketScan (oneNodeSt i1 n1 cell1 es sc) lat lon) (none, tol) =
        (some i1, haversineDistance lat lon n1.lat n1.lon) := by
  intro bs
  induction bs with
  | nil => intro h; simp at h
  | cons b bs ih =>
      intro hmem
      rw [List.foldl_cons, bucketScan_oneNode]
      cases h : cell1 == b
      · simp only [Bool.false_eq_true, if_false]
        apply ih
        rcases List.mem_cons.mp hmem with hc | hc
        · exfalso
          rw [hc] at h
          simp at h
        · exact hc
      · simp only [if_true]
        rw [if_pos (by simpa using hd)]
        exact snapFold_oneNode_absorb i1 n1 cell1 es sc lat lon bs

/-- Outside tolerance the fold finds nothing. -/
theorem snapFold_oneNode_far (i1 : String) (n1 : Node) (cell1 : String)
    (es : List (String × Edge)) (sc : ℕ) (lat lon tol : ℝ)
    (hd : ¬ haversineDistance lat lon n1.lat n1.lon < tol) :
    ∀ (bs : List String),
      bs.foldl (bucketScan (oneNodeSt i1 n1 cell1 es sc) lat lon) (none, tol) =
        (none, tol) := by
  intro bs
  induction bs with
  | nil => rfl
  | cons b bs ih =>
      rw [List.foldl_cons, bucketScan_oneNode]
      cases h : cell1 == b
      · simpa using ih
      · simp only [if_true]
        rw [if_neg (by simpa using hd)]
        exact ih

/-- Within tolerance and with the node's bucket searched, `findSnapCandidate`
on the one-node state finds that node at its distance. -/
theorem findSnap_oneNode_near (env : SpatialEnv) (tol : ℝ) (i1 : String) (n1 : Node)
    (cell1 : String) (es : List (String × Edge)) (sc : ℕ) (lat lon : ℝ)
    (hd : haversineDistance lat lon n1.lat n1.lon < tol)
    (hmem : cell1 ∈ env.diskOf (env.cellOf lat lon)) :
    findSnapCandidate env tol (oneNodeSt i1 n1 cell1 es sc) lat lon =
      some (i1, haversineDistance lat lon n1.lat n1.lon) := by
  unfold findSnapCandidate
  rw [snapFold_oneNode_near i1 n1 cell1 es sc lat lon tol hd _ hmem]

/-- Outside tolerance no snap candidate is found on the one-node state. -/
theorem findSnap_oneNode_far (env : SpatialEnv) (tol : ℝ) (i1 : String) (n1 : Node)
    (cell1 : String) (es : List (String × Edge)) (sc : ℕ) (lat lon : ℝ)
    (hd : ¬ haversineDistance lat lon n1.lat n1.lon < tol) :
    findSnapCandidate env tol (oneNodeSt i1 n1 cell1 es sc) lat lon = none := by
  unfold findSnapCandidate
  rw [snapFold_oneNode_far i1 n1 cell1 es sc lat lon tol hd]

end GeoLens

namespace GeoLens

/-- Processing a point asset on a fresh builder creates its node. -/
theorem processPoint_fresh (env : SpatialEnv) (tol lat lon : ℝ)
    (i1 at1 : String) (pr : EdgeProps) (hid : i1 ≠ "") :
    processPoint env tol BuilderState.empty ⟨i1, at1, Geometry.point lon lat, pr⟩ =
      oneNodeSt i1 ⟨i1, jsOrStr pr.ptype "manhole", lat, lon, 0, env.cellOf lat lon, []⟩
        (env.cellOf lat lon) [] 0 := by
  unfold processPoint addNode
  dsimp only
  rw [findSnap_empty]
  simp [jsOrStr, hid, mapSet, mapGet, BuilderState.empty, oneNodeSt, List.find?]

/-- C4: building from two point assets with distinct non-empty ids, when the
spatial index lists the first point's cell among the second's search buckets
(the h3 adequacy property, spec §4.1): if the two coordinates are within the
default 5 m snap tolerance the build has exactly one node, and if they are
farther apart than the tolerance it has two. -/
theorem build_point_pair_snap (env : SpatialEnv)
    (i1 i2 at1 at2 : String) (pr1 pr2 : EdgeProps)
    (lat1 lon1 lat2 lon2 : ℝ) (t : ℕ)
    (h1 : i1 ≠ "") (h2 : i2 ≠ "") (hne : i1 ≠ i2)
    (hbucket : env.cellOf lat1 lon1 ∈ env.diskOf (env.cellOf lat2 lon2)) :
    (haversineDistance lat2 lon2 lat1 lon1 < 5 →
      (build env 5 t [⟨i1, at1, Geometry.point lon1 lat1, pr1⟩,
        ⟨i2, at2, Geometry.point lon2 lat2, pr2⟩]).stats.nodeCount = 1)
    ∧ (5 < haversineDistance lat2 lon2 lat1 lon1 →
      (build env 5 t [⟨i1, at1, Geometry.point lon1 lat1, pr1⟩,
        ⟨i2, at2, Geometry.point lon2 lat2, pr2⟩]).stats.nodeCount = 2) := by
  set a1 : StormwaterAsset := ⟨i1, at1, Geometry.point lon1 lat1, pr1⟩ with ha1
  set a2 : StormwaterAsset := ⟨i2, at2, Geometry.point lon2 lat2, pr2⟩ with ha2
  set n1 : Node := ⟨i1, jsOrStr pr1.ptype "manhole", lat1, lon1, 0, env.cellOf lat1 lon1, []⟩
    with hn1
  set n2 : Node := ⟨i2, jsOrStr pr2.ptype "manhole", lat2, lon2, 0, env.cellOf lat2 lon2, []⟩
    with hn2
  have hpoints : [a1, a2].filter isPointGeom = [a1, a2] := by
    simp [ha1, ha2, isPointGeom]
  have hlines : [a1, a2].filter isLineGeom = [] := by
    simp [ha1, ha2, isLineGeom]
  have hst1 : processPoint env 5 BuilderState.empty a1 =
      oneNodeSt i1 n1 (env.cellOf lat1 lon1) [] 0 :=
    processPoint_fresh env 5 lat1 lon1 i1 at1 pr1 h1
  have hcatch : ∀ (st : BuilderState),
      ([a1, a2].filter (fun a => a.atype == "catchment")).foldl processCatchment st = st := by
    intro st
    apply foldl_fixed
    intro st' a ha
    have hmem : a = a1 ∨ a = a2 := by
      rcases List.mem_filter.mp ha with ⟨hmem, _⟩
      simpa using hmem
    rcases hmem with rfl | rfl <;> rfl
  have hbeq : (i1 == i2) = false := by
    simp [hne]
  constructor
  · intro hd
    have hsnap : findSnapCandidate env 5 (oneNodeSt i1 n1 (env.cellOf lat1 lon1) [] 0)
        lat2 lon2 = some (i1, haversineDistance lat2 lon2 n1.lat n1.lon) :=
      findSnap_oneNode_near env 5 i1 n1 (env.cellOf lat1 lon1) [] 0 lat2 lon2
        (by simpa [hn1] using hd) hbucket
    have hp2 : processPoint env 5 (oneNodeSt i1 n1 (env.cellOf lat1 lon1) [] 0) a2 =
        oneNodeSt i1 n1 (env.cellOf lat1 lon1) [] 0 := by
      rw [ha2]
      unfold processPoint addNode
      dsimp only
      rw [hsnap]
    simp only [build, hpoints, hlines, List.foldl_cons, List.foldl_nil, hst1, hp2, hcatch]
    simp [oneNodeSt]
  · intro hd
    have hsnap : findSnapCandidate env 5 (oneNodeSt i1 n1 (env.cellOf lat1 lon1) [] 0)
        lat2 lon2 = none :=
      findSnap_oneNode_far env 5 i1 n1 (env.cellOf lat1 lon1) [] 0 lat2 lon2
        (by simp only [hn1]; exact not_lt.mpr (le_of_lt hd))
    have hp2 : (processPoint env 5 (oneNodeSt i1 n1 (env.cellOf lat1 lon1) [] 0) a2).nodes =
        [(i1, n1), (i2, n2)] := by
      rw [ha2]
      unfold processPoint addNode
      dsimp only
      rw [hsnap]
      simp [oneNodeSt, mapSet, mapGet, jsOrStr, h2, List.find?, hbeq, hn2]
    simp only [build, hpoints, hlines, List.foldl_cons, List.foldl_nil, hst1, hcatch]
    simp [hp2]

end GeoLens

namespace GeoLens

/-- The haversine distance from a point at (0,0) to itself is 0. -/
theorem haversine_self_zero : haversineDistance 0 0 0 0 = 0 := by
  norm_num [haversineDistance, atan2]

/-- The haversine distance from (0,0) to (90,0) exceeds 5 meters. -/
theorem haversine_far_gt : 5 < haversineDistance 0 0 90 0 := by
  have h4 : (90:ℝ) * Real.pi / 180 / 2 = Real.pi / 4 := by ring
  have hmul : Real.sin (90 * Real.pi / 180 / 2) * Real.sin (90 * Real.pi / 180 / 2) = 1/2 := by
    rw [h4, Real.sin_pi_div_four, div_mul_div_comm,
      Real.mul_self_sqrt (by norm_num : (0:ℝ) ≤ 2)]
    norm_num
  have hne : Real.sqrt (1/2) ≠ 0 := ne_of_gt (Real.sqrt_pos.mpr (by norm_num))
  norm_num [haversineDistance, atan2, hmul, div_self hne, Real.arctan_one]
  nlinarith [Real.pi_gt_three]

/-- A concrete spatial index instantiating the builder theorems: every point
falls into the bucket "c" and each disk is the singleton of its center. -/
def env0 : SpatialEnv := ⟨fun _ _ => "c", fun s => [s], fun _ _ => "v"⟩

/-- An empty property bag. -/
def emptyProps : EdgeProps := ⟨none, none, none, []⟩

/-- Witness for C4: two coincident point assets build to one node; a point at
(0,0) and one at latitude 90 build to two nodes. -/
theorem build_point_pair_snap_witness :
    (("P1" : String) ≠ "") ∧ (("P2" : String) ≠ "") ∧ (("P1" : String) ≠ "P2")
    ∧ env0.cellOf 0 0 ∈ env0.diskOf (env0.cellOf 0 0)
    ∧ haversineDistance 0 0 0 0 < 5
    ∧ (build env0 5 0 [⟨"P1", "s", Geometry.point 0 0, emptyProps⟩,
        ⟨"P2", "s", Geometry.point 0 0, emptyProps⟩]).stats.nodeCount = 1
    ∧ env0.cellOf 90 0 ∈ env0.diskOf (env0.cellOf 0 0)
    ∧ 5 < haversineDistance 0 0 90 0
    ∧ (build env0 5 0 [⟨"P1", "s", Geometry.point 0 90, emptyProps⟩,
        ⟨"P2", "s", Geometry.point 0 0, emptyProps⟩]).stats.nodeCount = 2 := by
  have h1 : ("P1" : String) ≠ "" := by simp
  have h2 : ("P2" : String) ≠ "" := by simp
  have hne : ("P1" : String) ≠ "P2" := by simp
  have hb1 : env0.cellOf 0 0 ∈ env0.diskOf (env0.cellOf 0 0) := by simp [env0]
  have hb2 : env0.cellOf 90 0 ∈ env0.diskOf (env0.cellOf 0 0) := by simp [env0]
  have hd1 : haversineDistance 0 0 0 0 < 5 := by rw [haversine_self_zero]; norm_num
  refine ⟨h1, h2, hne, hb1, hd1, ?_, hb2, haversine_far_gt, ?_⟩
  · exact (build_point_pair_snap env0 "P1" "P2" "s" "s" emptyProps emptyProps
      0 0 0 0 0 h1 h2 hne hb1).1 hd1
  · exact (build_point_pair_snap env0 "P1" "P2" "s" "s" emptyProps emptyProps
      90 0 0 0 0 h1 h2 hne hb2).2 haversine_far_gt

end GeoLens

namespace GeoLens

/-- The node built for the point asset of the C10 scenario. -/
def nA0 : Node := ⟨"A", "manhole", 0, 0, 0, "c", []⟩

/-- The C10 asset list: one point at the origin and one line asset whose two
vertices both lie at the origin. -/
def loopAssets : List StormwaterAsset :=
  [⟨"A", "s", Geometry.point 0 0, emptyProps⟩,
   ⟨"L", "pipe", Geometry.lineString [(0, 0), (0, 0)], emptyProps⟩]

/-- The self-loop edge built for the degenerate line asset. -/
noncomputable def eLoop : Edge :=
  ⟨"edge_L", "A", "A", haversineDistance 0 0 0 0, 0, "L", emptyProps⟩

/-- C10: build resolves both endpoints of the degenerate line asset to the
same snapped node and creates a self-loop edge of length 0; the edge is
created normally (the network has exactly this one edge). -/
theorem build_creates_zero_length_self_loop :
    ∃ p ∈ (build env0 5 0 loopAssets).edges,
      (p : String × Edge).2.fromNodeId = (p : String × Edge).2.toNodeId
      ∧ (p : String × Edge).2.length = 0
      ∧ (build env0 5 0 loopAssets).stats.edgeCount = 1 := by
  have hd0 : haversineDistance 0 0 nA0.lat nA0.lon < 5 := by
    show haversineDistance 0 0 0 0 < 5
    rw [haversine_self_zero]
    norm_num
  have hmem0 : ("c" : String) ∈ env0.diskOf (env0.cellOf 0 0) := by simp [env0]
  have hsnap0 : findSnapCandidate env0 5 (⟨[("A", nA0)], [], [("c", ["A"])], 0⟩ : BuilderState)
      0 0 = some ("A", haversineDistance 0 0 nA0.lat nA0.lon) :=
    findSnap_oneNode_near env0 5 "A" nA0 "c" [] 0 0 0 hd0 hmem0
  have hsnap1 : findSnapCandidate env0 5 (⟨[("A", nA0)], [], [("c", ["A"])], 1⟩ : BuilderState)
      0 0 = some ("A", haversineDistance 0 0 nA0.lat nA0.lon) :=
    findSnap_oneNode_near env0 5 "A" nA0 "c" [] 1 0 0 hd0 hmem0
  have hget : mapGet [("A", nA0)] "A" = some nA0 := by
    rw [mapGet_singleton]
    simp
  have hst1 : processPoint env0 5 BuilderState.empty ⟨"A", "s", Geometry.point 0 0, emptyProps⟩ =
      (⟨[("A", nA0)], [], [("c", ["A"])], 0⟩ : BuilderState) := by
    rw [processPoint_fresh env0 5 0 0 "A" "s" emptyProps (by simp)]
    simp [oneNodeSt, env0, emptyProps, jsOrStr, nA0]
  have hline : processLine env0 5 (⟨[("A", nA0)], [], [("c", ["A"])], 0⟩ : BuilderState)
      ⟨"L", "pipe", Geometry.lineString [(0, 0), (0, 0)], emptyProps⟩ =
      (⟨[("A", nA0)], [("edge_L", eLoop)], [("c", ["A"])], 2⟩ : BuilderState) := by
    have hlat : nA0.lat = 0 := rfl
    have hlon : nA0.lon = 0 := rfl
    have hid : nA0.id = "A" := rfl
    simp only [processLine]
    simp [hsnap0, hsnap1, hget, eLoop, hlat, hlon, hid, List.getLast?, mapSet, mapGet,
      List.find?]
  have hbuild : build env0 5 0 loopAssets =
      ⟨"net_0", [("A", nA0)], [("edge_L", eLoop)], ["A", "L"], ⟨1, 1, 2⟩⟩ := by
    simp only [build, loopAssets]
    simp only [List.filter, isPointGeom, isLineGeom]
    simp only [List.foldl_cons, List.foldl_nil]
    rw [hst1, hline]
    simp
    rfl
  refine ⟨("edge_L", eLoop), ?_, rfl, haversine_self_zero, ?_⟩
  · rw [hbuild]
    simp
  · rw [hbuild]

end GeoLens
